import Mathlib

/-!
Shallow embedding of the safelift-ai backend's two core pipelines:

* the export-job pipeline (`apps/export_data`): the `Export` model row, its
  `save` override keeping `completed_at` in sync, and the `ExportService`
  operations (`create_export`, `run_export`, `retry_export`,
  `update_progress`, `mark_completed`, `mark_failed`, `get_download_info`),
  plus the `CsvExporter` file-layout logic from `exporters.py`;

* the knowledge-base embedding pipeline (`apps/knowledge_base`): the
  `KnowledgeBaseEntry` row, `EmbeddingService.generate_and_store_embeddings`,
  `EmbeddingProcessor.process_entry` and `EmbeddingService.search`.

External collaborators (OpenAI embeddings, the Pinecone index, the exporters'
file writes) are modelled as explicit function parameters returning
`Except String _` so that raised exceptions are visible; database writes are
modelled by returning the updated row.
-/

namespace SafeLift

/-! ### Export data model (`apps/export_data/models.py`, `constants.py`) -/

def STATUS_PENDING : String := "pending"

def STATUS_PROCESSING : String := "processing"

def STATUS_COMPLETED : String := "completed"

def STATUS_FAILED : String := "failed"

def MIN_DATE_RANGE_DAYS : Int := 1

def MAX_DATE_RANGE_DAYS : Int := 365

def PROGRESS_MIN : Int := 0

def PROGRESS_MAX : Int := 100

/-- One row of the `Export` model.  Optional text/number columns are
`Option`-valued; statuses are the literal strings of `Export.Status`. -/
structure Export where
  data_types : List String
  format : String
  date_range_days : Int
  include_personal_data : Bool
  status : String
  progress_percentage : Int
  file_path : Option String
  file_size : Option Int
  error_message : String
  completed_at : Option Nat
  deriving Repr, DecidableEq

/-- The `Export.save` override (models.py lines 101-106): if the row is
COMPLETED and `completed_at` is unset, stamp it; if the row is not COMPLETED,
clear it.  Every persisting operation of the service funnels through this. -/
def Export.save (e : Export) (now : Nat) : Export :=
  let e1 := if e.status = STATUS_COMPLETED ∧ e.completed_at = none then
    { e with completed_at := some now } else e
  if e1.status ≠ STATUS_COMPLETED then { e1 with completed_at := none } else e1

/-- The typed exceptions of `apps/export_data/exceptions.py` that the service
layer raises. -/
inductive ExportErr
  | creationInvalidDateRange
  | notRetryable
  | invalidProgress
  | downloadNotReady
  | downloadFileMissing
  deriving Repr, DecidableEq

/-- `ExportService.create_export`: validates the date range, then creates a
PENDING row (Django `objects.create` runs `save`). -/
def create_export (dts : List String) (fmt : String) (drd : Int) (ipd : Bool)
    (now : Nat) : Except ExportErr Export :=
  if drd < MIN_DATE_RANGE_DAYS ∨ drd > MAX_DATE_RANGE_DAYS then
    .error .creationInvalidDateRange
  else
    .ok (Export.save
      { data_types := dts, format := fmt, date_range_days := drd,
        include_personal_data := ipd, status := STATUS_PENDING,
        progress_percentage := 0, file_path := none, file_size := none,
        error_message := "", completed_at := none } now)

/-- `ExportService.mark_completed`: COMPLETED, progress 100, file info,
`completed_at` stamped, then save. -/
def mark_completed (e : Export) (fp : String) (fs : Int) (now : Nat) : Export :=
  Export.save { e with
    status := STATUS_COMPLETED
    progress_percentage := 100
    file_path := some fp
    file_size := some fs
    completed_at := some now } now

/-- `ExportService.mark_failed`: FAILED with the error message, then save;
no other field is assigned. -/
def mark_failed (e : Export) (msg : String) (now : Nat) : Export :=
  Export.save { e with status := STATUS_FAILED, error_message := msg } now

/-- `ExportService.run_export`: set PROCESSING / progress 10 and save, then
run the exporter; on success `mark_completed` with its `(path, size)`, on any
exception `mark_failed` with the message.  The exporter is abstracted as its
outcome. -/
def run_export (e : Export) (outcome : Except String (String × Int))
    (now : Nat) : Export :=
  let e1 := Export.save
    { e with status := STATUS_PROCESSING, progress_percentage := 10 } now
  match outcome with
  | .ok (fp, fs) => mark_completed e1 fp fs now
  | .error msg => mark_failed e1 msg now

/-- `ExportService.retry_export`: raises unless the job is FAILED, else resets
to PENDING with progress 0 and a cleared error message.  The raise precedes
every field assignment, so the error case produces no new row state. -/
def retry_export (e : Export) (now : Nat) : Except ExportErr Export :=
  if e.status ≠ STATUS_FAILED then .error .notRetryable
  else .ok (Export.save { e with
    status := STATUS_PENDING
    progress_percentage := 0
    error_message := "" } now)

/-- `ExportService.update_progress`: range-check first (raising before any
assignment), then set the percentage and — only for a truthy `status`
argument — the status, then save. -/
def update_progress (e : Export) (percentage : Int) (st : Option String)
    (now : Nat) : Except ExportErr Export :=
  if percentage < PROGRESS_MIN ∨ percentage > PROGRESS_MAX then
    .error .invalidProgress
  else
    let e1 := { e with progress_percentage := percentage }
    let e2 := match st with
      | some s => if s.isEmpty then e1 else { e1 with status := s }
      | none => e1
    .ok (Export.save e2 now)

/-- Python truthiness of `export.file_path` (a nullable text column):
falsy iff absent or empty. -/
def pathBlank : Option String → Bool
  | none => true
  | some s => s.isEmpty

/-- The dictionary returned by `ExportService.get_download_info`. -/
structure DownloadInfo where
  download_url : String
  file_size : Option Int
  format : String
  deriving Repr, DecidableEq

/-- `ExportService.get_download_info`: `not_ready` unless COMPLETED, then
`file_missing` if `file_path` is falsy, else the download dictionary.  The
code never consults the file system. -/
def get_download_info (e : Export) : Except ExportErr DownloadInfo :=
  if e.status ≠ STATUS_COMPLETED then .error .downloadNotReady
  else if pathBlank e.file_path then .error .downloadFileMissing
  else .ok { download_url := "/media/" ++ e.file_path.getD "",
             file_size := e.file_size, format := e.format }

/-- Export rows reachable through the persisted service operations, starting
from `create_export`.  The boolean flag records whether the job has ever gone
through a completion (`mark_completed`, directly or inside a successful
`run_export`). -/
inductive Reach : Export → Bool → Prop
  | create (dts : List String) (fmt : String) (drd : Int) (ipd : Bool)
      (now : Nat) (e : Export) :
      create_export dts fmt drd ipd now = .ok e → Reach e false
  | run_ok (e : Export) (b : Bool) (fp : String) (fs : Int) (now : Nat) :
      Reach e b → Reach (run_export e (.ok (fp, fs)) now) true
  | run_err (e : Export) (b : Bool) (msg : String) (now : Nat) :
      Reach e b → Reach (run_export e (.error msg) now) b
  | update (e : Export) (b : Bool) (p : Int) (st : Option String) (now : Nat)
      (e' : Export) :
      Reach e b → update_progress e p st now = .ok e' → Reach e' b
  | completed (e : Export) (b : Bool) (fp : String) (fs : Int) (now : Nat) :
      Reach e b → Reach (mark_completed e fp fs now) true
  | failed (e : Export) (b : Bool) (msg : String) (now : Nat) :
      Reach e b → Reach (mark_failed e msg now) b
  | retry (e : Export) (b : Bool) (now : Nat) (e' : Export) :
      Reach e b → retry_export e now = .ok e' → Reach e' b

/-! ### CSV exporter file layout (`apps/export_data/exporters.py`) -/

/-- A collected record: an ordered association list of field name / rendered
value, mirroring the dictionaries built by the `_fetch_*` collectors. -/
def Record := List (String × String)

/-- The four recognised data types, in the fixed order `_collect_data`
checks them. -/
def knownDataTypes : List String :=
  ["conversations", "knowledge_base", "escalations", "analytics"]

/-- `BaseExporter._collect_data`: one `(name, rows)` entry per recognised
data type present in the request, in the fixed dictionary insertion order;
`fetch` abstracts the per-type collectors. -/
def collect_data (dataTypes : List String) (fetch : String → List Record) :
    List (String × List Record) :=
  knownDataTypes.filterMap fun t =>
    if dataTypes.contains t then some (t, fetch t) else none

/-- The header row `csv.DictWriter` writes: the first record's field names,
or the single placeholder column for an empty dataset. -/
def csvHeader (rows : List Record) : List String :=
  match rows with
  | [] => ["empty"]
  | r :: _ => r.map Prod.fst

/-- `csv.DictWriter`'s per-row check (default `extrasaction` is the raising
one): a row may only carry keys that are among the field names. -/
def rowFits (hdr : List String) (r : Record) : Bool :=
  r.all fun kv => hdr.contains kv.1

/-- The cell matrix of one successfully written CSV file: the header row
followed by one value row per record (values taken in header order, missing
keys filled with the empty `restval`). -/
def csvMatrix (rows : List Record) : List (List String) :=
  csvHeader rows ::
    rows.map fun r =>
      (csvHeader rows).map fun k =>
        (((r.find? fun kv => kv.1 = k).map Prod.snd).getD "")

/-- Writing one CSV file with `csv.DictWriter`: if some record carries a key
absent from the first record's field names, `writerows` raises `ValueError`
(`dict contains fields not in fieldnames`); otherwise the full matrix is
written. -/
def csvRows (rows : List Record) : Except String (List (List String)) :=
  if rows.all (rowFits (csvHeader rows)) then .ok (csvMatrix rows)
  else .error "dict contains fields not in fieldnames"

/-- The file artifact produced by an exporter: either a single file or a ZIP
archive of named entries, each entry carrying its CSV cell matrix. -/
inductive ExportArtifact
  | single (fileName : String) (content : List (List String))
  | zip (fileName : String) (entries : List (String × List (List String)))
  deriving DecidableEq

/-- The ZIP-writing loop of `CsvExporter.export`: one `{name}.csv` entry per
dataset, in order; the first `ValueError` from a dataset's rows aborts the
loop and propagates. -/
def buildZipEntries :
    List (String × List Record) →
      Except String (List (String × List (List String)))
  | [] => .ok []
  | (n, rows) :: rest => do
    let c ← csvRows rows
    let tail ← buildZipEntries rest
    pure ((n ++ ".csv", c) :: tail)

/-- `CsvExporter.export`: with more than one collected dataset, a ZIP named
`export_{id}.zip` holding `{name}.csv` per dataset; otherwise a standalone
`{name}.csv` (placeholder name `export` when nothing was collected).  A
`ValueError` from `csv.DictWriter` propagates out of `export` (failing the
job), so the result is fallible. -/
def CsvExporter.export (export_id : Nat) (dataTypes : List String)
    (fetch : String → List Record) : Except String ExportArtifact :=
  let data := collect_data dataTypes fetch
  if data.length > 1 then
    match buildZipEntries data with
    | .error m => .error m
    | .ok entries =>
      .ok (.zip ("export_" ++ toString export_id ++ ".zip") entries)
  else
    match data with
    | [] =>
      match csvRows [] with
      | .error m => .error m
      | .ok c => .ok (.single ("export" ++ ".csv") c)
    | nr :: _ =>
      match csvRows nr.2 with
      | .error m => .error m
      | .ok c => .ok (.single (nr.1 ++ ".csv") c)

/-- A dataset whose second record carries a key (`user_email`, added by
`_fetch_conversations` only when the conversation has a user and personal
data is included) that is absent from the first record's field names. -/
def badRecords : List Record :=
  [[("id", "1")], [("id", "2"), ("user_email", "a@b.se")]]

/-! ### Knowledge-base entries (`apps/knowledge_base/models.py`) -/

/-- Python truthiness of a nullable Django text field: truthy iff present and
non-empty. -/
def truthy : Option String → Bool
  | none => false
  | some s => !s.isEmpty

/-- One `KnowledgeBaseEntry` row (the fields the embedding pipeline reads and
writes). -/
structure KBEntry where
  id : String
  issue_title_en : Option String
  solution_en : Option String
  issue_title_sv : Option String
  solution_sv : Option String
  category : String
  status : String
  tags : List String
  embedding_status : String
  pinecone_vector_ids : List String
  processed_at : Option Nat
  deriving Repr, DecidableEq

/-- `KnowledgeBaseEntry.get_combined_content_en`. -/
def get_combined_content_en (e : KBEntry) : String :=
  e.issue_title_en.getD "" ++ "\n\n" ++ e.solution_en.getD ""

/-- `KnowledgeBaseEntry.get_combined_content_sv`. -/
def get_combined_content_sv (e : KBEntry) : String :=
  e.issue_title_sv.getD "" ++ "\n\n" ++ e.solution_sv.getD ""

/-- The metadata attached to one upserted vector
(`build_embedding_metadata`). -/
structure VectorMeta where
  entry_id : String
  language : String
  category : String
  status : String
  tags : List String
  deriving Repr, DecidableEq

/-- `EmbeddingService._create_vector_data` for one language. -/
def create_vector_data (e : KBEntry) (lang : String) : String × VectorMeta :=
  (if lang = "en" then get_combined_content_en e else get_combined_content_sv e,
   { entry_id := e.id, language := lang, category := e.category,
     status := e.status, tags := e.tags })

/-- One vector queued for upsert: `(vector id, embedding, metadata)`. -/
def UpVector := String × List Int × VectorMeta

/-- `entry.issue_title_en and entry.solution_en` — the English pair is fully
non-empty. -/
def enComplete (e : KBEntry) : Bool :=
  truthy e.issue_title_en && truthy e.solution_en

/-- `entry.issue_title_sv and entry.solution_sv` — the Swedish pair is fully
non-empty. -/
def svComplete (e : KBEntry) : Bool :=
  truthy e.issue_title_sv && truthy e.solution_sv

/-- The external OpenAI/Pinecone boundary seen by `EmbeddingService`.
`embeddings` / `vector_store` say whether each client initialised;
`embed`, `upsert` and `query` are the provider calls, returning
`Except String _` so raised exceptions are explicit. -/
structure Backend where
  embeddings : Bool
  vector_store : Bool
  embed : String → Except String (List Int)
  upsert : List UpVector → Except String Unit
  query : List Int → Nat → Option (List (String × String)) →
    Except String (List (Int × List (String × String)))

/-- The `EmbeddingResult` dataclass. -/
structure EmbeddingResult where
  success : Bool
  vector_ids : List String
  error_message : Option String
  deriving Repr, DecidableEq

/-- The deterministic message `generate_and_store_embeddings` returns when a
client is uninitialised (missing credentials or libraries). -/
def servicesUnavailableMsg (b : Backend) : String :=
  "Services not available: " ++ String.intercalate "; "
    ((if !b.embeddings then ["OpenAI embeddings not initialized"] else []) ++
     (if !b.vector_store then ["Pinecone not initialized"] else []))

/-- The embed-and-collect phase of `generate_and_store_embeddings`: for each
language whose title and solution are both truthy, embed the combined content
and queue `("{id}_{lang}", embedding, metadata)` — English first, Swedish
second.  An exception from `embed` aborts the phase. -/
def collectVectors (b : Backend) (e : KBEntry) : Except String (List UpVector) := do
  let en ←
    if enComplete e then
      match b.embed (create_vector_data e "en").1 with
      | .ok emb => pure [(e.id ++ "_en", emb, (create_vector_data e "en").2)]
      | .error m => throw m
    else pure []
  let sv ←
    if svComplete e then
      match b.embed (create_vector_data e "sv").1 with
      | .ok emb => pure [(e.id ++ "_sv", emb, (create_vector_data e "sv").2)]
      | .error m => throw m
    else pure []
  pure (en ++ sv)

/-- `EmbeddingService.generate_and_store_embeddings` (services.py 226-294):
fail fast with the services message when a client is missing; embed the
complete language pairs; fail with `No content to process` when none was
complete; upsert the batch; on success report the produced vector ids.  Any
exception in the try block becomes an `Error storing embeddings: ...`
failure result. -/
def generate_and_store_embeddings (b : Backend) (e : KBEntry) :
    EmbeddingResult :=
  if !b.vector_store || !b.embeddings then
    { success := false, vector_ids := [],
      error_message := some (servicesUnavailableMsg b) }
  else
    match collectVectors b e with
    | .error m =>
      { success := false, vector_ids := [],
        error_message := some ("Error storing embeddings: " ++ m) }
    | .ok vectors =>
      if vectors.isEmpty then
        { success := false, vector_ids := [],
          error_message := some "No content to process" }
      else
        match b.upsert vectors with
        | .error m =>
          { success := false, vector_ids := [],
            error_message := some ("Error storing embeddings: " ++ m) }
        | .ok _ =>
          { success := true, vector_ids := vectors.map fun v => v.1,
            error_message := none }

/-- `EmbeddingProcessor.process_entry` (services.py 96-139): on a missing
entry, an `Entry not found` failure with no write; otherwise mark PROCESSING
(a write of only `embedding_status`), run the embedding service, then either
`_mark_processing_complete` (writing `pinecone_vector_ids`,
`embedding_status`, `processed_at`) or `_update_status FAILED` (writing only
`embedding_status`).  Returns the result together with the final row state. -/
def process_entry (b : Backend) (lookup : Option KBEntry) (now : Nat) :
    EmbeddingResult × Option KBEntry :=
  match lookup with
  | none =>
    ({ success := false, vector_ids := [],
       error_message := some "Entry not found" }, none)
  | some entry =>
    let entry1 := { entry with embedding_status := STATUS_PROCESSING }
    let result := generate_and_store_embeddings b entry1
    if result.success then
      (result, some { entry1 with
        pinecone_vector_ids := result.vector_ids,
        embedding_status := STATUS_COMPLETED,
        processed_at := some now })
    else
      (result, some { entry1 with embedding_status := STATUS_FAILED })

/-! ### Vector search (`EmbeddingService.search`, services.py 296-355) -/

/-- Lookup in a metadata dictionary with a default (Python `dict.get(k, d)`). -/
def metaGetD (m : List (String × String)) (k d : String) : String :=
  ((m.find? fun kv => kv.1 = k).map Prod.snd).getD d

/-- Lookup in a metadata dictionary without a default (Python `dict.get(k)`). -/
def metaGet? (m : List (String × String)) (k : String) : Option String :=
  (m.find? fun kv => kv.1 = k).map Prod.snd

/-- The `SearchResult` dataclass (scores kept as integers: no claim does
arithmetic on them). -/
structure SearchResult where
  entry_id : String
  score : Int
  content : Option String
  language : String
  category : String
  metadata : List (String × String)
  deriving Repr, DecidableEq

/-- The equality filter `search` builds: a `language` key for a truthy
language argument, then a `category` key for a truthy category argument. -/
def buildFilter (language category : Option String) : List (String × String) :=
  (if truthy language then [("language", language.getD "")] else []) ++
    (if truthy category then [("category", category.getD "")] else [])

/-- The filter argument actually passed to the index query: the built
dictionary, or `none` when it is empty (`filter_dict if filter_dict else
None`). -/
def sentFilter (language category : Option String) :
    Option (List (String × String)) :=
  if (buildFilter language category).isEmpty then none
  else some (buildFilter language category)

/-- How `search` maps one raw index match `(score, metadata)` to a
`SearchResult`. -/
def toSearchResult (include_content : Bool)
    (m : Int × List (String × String)) : SearchResult :=
  { entry_id := metaGetD m.2 "entry_id" "",
    score := m.1,
    content := if include_content then metaGet? m.2 "text" else none,
    language := metaGetD m.2 "language" "",
    category := metaGetD m.2 "category" "",
    metadata := m.2 }

/-- `EmbeddingService.search`: empty list when a client is missing; embed the
query; query the index with `sentFilter`; map the matches in order; any
exception degrades to an empty list. -/
def search (b : Backend) (query : String) (language category : Option String)
    (top_k : Nat) (include_content : Bool) : List SearchResult :=
  if !b.vector_store || !b.embeddings then []
  else
    match b.embed query with
    | .error _ => []
    | .ok qv =>
      match b.query qv top_k (sentFilter language category) with
      | .error _ => []
      | .ok ms => ms.map (toSearchResult include_content)

/-! ### Concrete sample values used by witnesses -/

/-- A freshly created export row (the result of a valid `create_export`). -/
def sampleExport : Export :=
  { data_types := ["conversations"], format := "csv", date_range_days := 30,
    include_personal_data := false, status := STATUS_PENDING,
    progress_percentage := 0, file_path := none, file_size := none,
    error_message := "", completed_at := none }

/-- A backend whose clients are initialised and whose calls all succeed. -/
def sampleBackend : Backend :=
  { embeddings := true, vector_store := true,
    embed := fun _ => .ok [1, 2], upsert := fun _ => .ok (),
    query := fun _ _ _ => .ok [] }

/-- An entry with only the English pair complete. -/
def sampleEntry : KBEntry :=
  { id := "e1", issue_title_en := some "Pump leaks",
    solution_en := some "Replace seal", issue_title_sv := none,
    solution_sv := none, category := "Hydraulics", status := "active",
    tags := [], embedding_status := STATUS_PENDING,
    pinecone_vector_ids := [], processed_at := none }

/-! ### Helper lemmas about `Export.save` -/

theorem save_status (e : Export) (now : Nat) :
    (Export.save e now).status = e.status := by
  simp only [Export.save]
  split <;> split <;> rfl

theorem save_progress (e : Export) (now : Nat) :
    (Export.save e now).progress_percentage = e.progress_percentage := by
  simp only [Export.save]
  split <;> split <;> rfl

theorem save_file_path (e : Export) (now : Nat) :
    (Export.save e now).file_path = e.file_path := by
  simp only [Export.save]
  split <;> split <;> rfl

theorem save_file_size (e : Export) (now : Nat) :
    (Export.save e now).file_size = e.file_size := by
  simp only [Export.save]
  split <;> split <;> rfl

theorem save_error_message (e : Export) (now : Nat) :
    (Export.save e now).error_message = e.error_message := by
  simp only [Export.save]
  split <;> split <;> rfl

/-- After any `save`, `completed_at` is set exactly when the status is
COMPLETED. -/
theorem save_sync (e : Export) (now : Nat) :
    ((Export.save e now).completed_at ≠ none ↔
      (Export.save e now).status = STATUS_COMPLETED) := by
  have hs := save_status e now
  rw [hs]
  by_cases h : e.status = STATUS_COMPLETED
  · cases hc : e.completed_at <;> simp only [Export.save, h, hc] <;> simp [h, hc]
  · simp only [Export.save]
    have h1 : ¬(e.status = STATUS_COMPLETED ∧ e.completed_at = none) := by
      intro hx; exact h hx.1
    simp [h1, h]

/-! ### Claim theorems: export job state machine -/

/-- C3: after every persisted operation on an export job (`create_export`,
`run_export`, `update_progress`, `mark_completed`, `mark_failed`,
`retry_export`), `completed_at` is non-null if and only if the status is
COMPLETED. -/
theorem c3_completed_at_iff_status (e : Export) (b : Bool) (h : Reach e b) :
    (e.completed_at ≠ none ↔ e.status = STATUS_COMPLETED) := by
  induction h with
  | create dts fmt drd ipd now e hc =>
    unfold create_export at hc
    split at hc
    · exact Except.noConfusion hc
    · injection hc with h2
      subst h2
      exact save_sync _ _
  | run_ok e b fp fs now _ _ =>
    simp only [run_export, mark_completed]
    exact save_sync _ _
  | run_err e b msg now _ _ =>
    simp only [run_export, mark_failed]
    exact save_sync _ _
  | update e b p st now e' _ hu _ =>
    unfold update_progress at hu
    split at hu
    · exact Except.noConfusion hu
    · injection hu with h2
      subst h2
      exact save_sync _ _
  | completed e b fp fs now _ _ =>
    simp only [mark_completed]
    exact save_sync _ _
  | failed e b msg now _ _ =>
    simp only [mark_failed]
    exact save_sync _ _
  | retry e b now e' _ hr _ =>
    unfold retry_export at hr
    split at hr
    · exact Except.noConfusion hr
    · injection hr with h2
      subst h2
      exact save_sync _ _

/-- Witness for C3 at a freshly created job. -/
theorem c3_completed_at_iff_status_witness :
    (sampleExport.completed_at ≠ none ↔
      sampleExport.status = STATUS_COMPLETED) :=
  c3_completed_at_iff_status sampleExport false
    (Reach.create ["conversations"] "csv" 30 false 0 sampleExport rfl)

/-- C4 counterexample: a job completed and then marked failed is reachable,
has status FAILED, yet still has a populated `file_path` — so file info is
not populated only in COMPLETED states. -/
theorem c4_counterexample :
    ¬(∀ (e : Export) (b : Bool), Reach e b → e.file_path ≠ none →
        e.status = STATUS_COMPLETED) := by
  intro hall
  have hreach : Reach (mark_failed
      (mark_completed sampleExport "exports/1/conversations.csv" 42 5)
      "boom" 6) true :=
    Reach.failed _ true _ _
      (Reach.completed _ false _ _ _
        (Reach.create ["conversations"] "csv" 30 false 0 sampleExport rfl))
  have hst := hall _ true hreach (fun hx => Option.noConfusion hx)
  have h2 : ("failed" : String) = "completed" := hst
  exact absurd h2 (by decide)

/-- C4 (amended): `file_path` and `file_size` are written only by a
completion; in every state reachable without any completion they are null.
(They are not cleared by a later `mark_failed` or `retry_export`, so a job
that was once COMPLETED can retain them in non-COMPLETED states — the
counterexample above.) -/
theorem c4_file_fields_null_before_completion (e : Export) (b : Bool)
    (h : Reach e b) :
    b = false → (e.file_path = none ∧ e.file_size = none) := by
  induction h with
  | create dts fmt drd ipd now e hc =>
    intro _
    unfold create_export at hc
    split at hc
    · exact Except.noConfusion hc
    · injection hc with h2
      subst h2
      rw [save_file_path, save_file_size]
      exact ⟨rfl, rfl⟩
  | run_ok e b fp fs now _ _ =>
    intro hb
    exact Bool.noConfusion hb
  | run_err e b msg now _ ih =>
    intro hb
    have hf := ih hb
    simp only [run_export, mark_failed]
    rw [save_file_path, save_file_size]
    exact hf
  | update e b p st now e' _ hu ih =>
    intro hb
    have hf := ih hb
    unfold update_progress at hu
    split at hu
    · exact Except.noConfusion hu
    · injection hu with h2
      subst h2
      rw [save_file_path, save_file_size]
      cases st with
      | none => exact hf
      | some s =>
        by_cases hs : s.isEmpty <;> simp only [hs] <;> simp [hf.1, hf.2, hs]
  | completed e b fp fs now _ _ =>
    intro hb
    exact Bool.noConfusion hb
  | failed e b msg now _ ih =>
    intro hb
    have hf := ih hb
    simp only [mark_failed]
    rw [save_file_path, save_file_size]
    exact hf
  | retry e b now e' _ hr ih =>
    intro hb
    have hf := ih hb
    unfold retry_export at hr
    split at hr
    · exact Except.noConfusion hr
    · injection hr with h2
      subst h2
      rw [save_file_path, save_file_size]
      exact hf

/-- Witness for C4 (amended) at a freshly created job. -/
theorem c4_file_fields_null_before_completion_witness :
    sampleExport.file_path = none ∧ sampleExport.file_size = none :=
  c4_file_fields_null_before_completion sampleExport false
    (Reach.create ["conversations"] "csv" 30 false 0 sampleExport rfl) rfl

/-- C6: `retry_export` raises `NotRetryable` on a non-FAILED job, producing
no new row state; on a FAILED job it resets to PENDING with progress 0 and a
cleared error message. -/
theorem c6_retry_gating (e : Export) (now : Nat) :
    (e.status ≠ STATUS_FAILED →
      retry_export e now = .error .notRetryable) ∧
    (e.status = STATUS_FAILED → ∃ e',
      retry_export e now = .ok e' ∧ e'.status = STATUS_PENDING ∧
      e'.progress_percentage = 0 ∧ e'.error_message = "") := by
  constructor
  · intro h
    unfold retry_export
    simp [h]
  · intro h
    unfold retry_export
    simp only [h, ne_eq, not_true_eq_false, if_false, ite_false]
    refine ⟨_, rfl, ?_, ?_, ?_⟩
    · rw [save_status]
    · rw [save_progress]
    · rw [save_error_message]

/-- Witness for C6: a COMPLETED job is not retryable, a FAILED one resets. -/
theorem c6_retry_gating_witness :
    (retry_export { sampleExport with status := STATUS_COMPLETED } 5 =
      .error .notRetryable) ∧
    (∃ e', retry_export { sampleExport with status := STATUS_FAILED } 5 =
      .ok e' ∧ e'.status = STATUS_PENDING ∧ e'.progress_percentage = 0 ∧
      e'.error_message = "") :=
  ⟨(c6_retry_gating { sampleExport with status := STATUS_COMPLETED } 5).1
      (by decide),
   (c6_retry_gating { sampleExport with status := STATUS_FAILED } 5).2 rfl⟩

/-- C9: when the exporter raises during `run_export`, the job ends FAILED
with the exception detail as error message, progress stays at the 10 set at
the start of the run, and the file fields are not written. -/
theorem c9_run_export_failure (e : Export) (msg : String) (now : Nat) :
    (run_export e (.error msg) now).status = STATUS_FAILED ∧
    (run_export e (.error msg) now).error_message = msg ∧
    (run_export e (.error msg) now).progress_percentage = 10 ∧
    (run_export e (.error msg) now).file_path = e.file_path ∧
    (run_export e (.error msg) now).file_size = e.file_size := by
  simp only [run_export, mark_failed]
  refine ⟨?_, ?_, ?_, ?_, ?_⟩
  · rw [save_status]
  · rw [save_error_message]
  · rw [save_progress, save_progress]
  · rw [save_file_path, save_file_path]
  · rw [save_file_size, save_file_size]

/-- C10: `update_progress` rejects a percentage outside [0, 100] with
`ExportValidationError` before any assignment (so no new row state is
produced); a percentage in range is stored exactly, and the status is
assigned only when a status argument was supplied. -/
theorem c10_update_progress (e : Export) (p : Int) (st : Option String)
    (now : Nat) :
    (p < PROGRESS_MIN ∨ p > PROGRESS_MAX →
      update_progress e p st now = .error .invalidProgress) ∧
    (PROGRESS_MIN ≤ p → p ≤ PROGRESS_MAX → ∃ e',
      update_progress e p st now = .ok e' ∧
      e'.progress_percentage = p ∧
      (st = none → e'.status = e.status)) := by
  constructor
  · intro h
    unfold update_progress
    simp [h]
  · intro h1 h2
    have hnot : ¬(p < PROGRESS_MIN ∨ p > PROGRESS_MAX) := by
      push_neg
      exact ⟨h1, h2⟩
    unfold update_progress
    simp only [hnot, if_false, ite_false]
    refine ⟨_, rfl, ?_, ?_⟩
    · rw [save_progress]
      cases st with
      | none => rfl
      | some s => by_cases hs : s.isEmpty <;> simp [hs]
    · intro hst
      subst hst
      rw [save_status]

/-- Witness for C10: 150 is rejected, 50 is stored with status untouched. -/
theorem c10_update_progress_witness :
    (update_progress sampleExport 150 none 5 = .error .invalidProgress) ∧
    (∃ e', update_progress sampleExport 50 none 5 = .ok e' ∧
      e'.progress_percentage = 50 ∧
      ((none : Option String) = none → e'.status = sampleExport.status)) :=
  ⟨(c10_update_progress sampleExport 150 none 5).1
      (by right; decide),
   (c10_update_progress sampleExport 50 none 5).2 (by decide) (by decide)⟩

/-- C2 counterexample: on a COMPLETED job with an empty file path,
`get_download_info` raises `FileMissing`, not `NotReady` as the claim
states. -/
theorem c2_counterexample :
    get_download_info { sampleExport with status := STATUS_COMPLETED } =
      .error .downloadFileMissing ∧
    get_download_info { sampleExport with status := STATUS_COMPLETED } ≠
      .error .downloadNotReady := by
  constructor
  · rfl
  · intro hx
    have h2 : ExportErr.downloadFileMissing = ExportErr.downloadNotReady := by
      have h3 : (Except.error ExportErr.downloadFileMissing :
          Except ExportErr DownloadInfo) = .error .downloadNotReady := hx
      injection h3
    exact ExportErr.noConfusion h2

/-- C2 (amended): `get_download_info` raises `NotReady` whenever the status
is not COMPLETED; on a COMPLETED job with a falsy (null or empty) file path
it raises the distinct `FileMissing`; on a COMPLETED job with a non-empty
path it succeeds — the code never checks that the file exists in storage. -/
theorem c2_download_gating (e : Export) :
    (e.status ≠ STATUS_COMPLETED →
      get_download_info e = .error .downloadNotReady) ∧
    (e.status = STATUS_COMPLETED → pathBlank e.file_path = true →
      get_download_info e = .error .downloadFileMissing) ∧
    (e.status = STATUS_COMPLETED → pathBlank e.file_path = false →
      get_download_info e = .ok
        { download_url := "/media/" ++ e.file_path.getD "",
          file_size := e.file_size, format := e.format }) := by
  refine ⟨?_, ?_, ?_⟩
  · intro h
    unfold get_download_info
    simp [h]
  · intro h hb
    unfold get_download_info
    simp [h, hb]
  · intro h hb
    unfold get_download_info
    simp [h, hb]

/-- Witness for C2 (amended): a PROCESSING job is NotReady; a COMPLETED job
with an empty path is FileMissing; a COMPLETED job with a path succeeds. -/
theorem c2_download_gating_witness :
    (get_download_info { sampleExport with status := STATUS_PROCESSING } =
      .error .downloadNotReady) ∧
    (get_download_info { sampleExport with status := STATUS_COMPLETED } =
      .error .downloadFileMissing) ∧
    (get_download_info { sampleExport with
        status := STATUS_COMPLETED
        file_path := some "exports/1/conversations.csv" } =
      .ok { download_url := "/media/" ++ "exports/1/conversations.csv",
            file_size := none, format := "csv" }) :=
  ⟨(c2_download_gating { sampleExport with status := STATUS_PROCESSING }).1
      (by decide),
   (c2_download_gating { sampleExport with status := STATUS_COMPLETED }).2.1
      rfl rfl,
   (c2_download_gating { sampleExport with
        status := STATUS_COMPLETED
        file_path := some "exports/1/conversations.csv" }).2.2 rfl rfl⟩

/-! ### Claim theorems: CSV exporter layout -/

theorem contains_iff (l : List String) (a : String) :
    l.contains a = true ↔ a ∈ l := by
  simp [List.elem_eq_mem]

theorem collect_data_eq (dts : List String) (fetch : String → List Record) :
    collect_data dts fetch =
      (knownDataTypes.filter fun t => dts.contains t).map
        fun t => (t, fetch t) := by
  unfold collect_data
  generalize knownDataTypes = l
  induction l with
  | nil => rfl
  | cons a l ih =>
    by_cases h : a ∈ dts <;>
      simp [List.filterMap_cons, List.filter_cons, h] <;>
      simpa using ih

theorem filter_known_length (dts : List String) (hnd : dts.Nodup)
    (hsub : ∀ t ∈ dts, t ∈ knownDataTypes) :
    (knownDataTypes.filter fun t => dts.contains t).length = dts.length := by
  have hk : knownDataTypes.Nodup := by decide
  have hfn : (knownDataTypes.filter fun t => dts.contains t).Nodup :=
    hk.filter _
  have hset : (knownDataTypes.filter fun t => dts.contains t).toFinset =
      dts.toFinset := by
    ext x
    simp only [List.mem_toFinset, List.mem_filter, contains_iff]
    exact ⟨fun hx => hx.2, fun hx => ⟨hsub x hx, hx⟩⟩
  calc (knownDataTypes.filter fun t => dts.contains t).length
      = (knownDataTypes.filter fun t => dts.contains t).toFinset.card :=
        (List.toFinset_card_of_nodup hfn).symm
    _ = dts.toFinset.card := by rw [hset]
    _ = dts.length := List.toFinset_card_of_nodup hnd

theorem csvRows_ok (rows : List Record)
    (h : rows.all (rowFits (csvHeader rows)) = true) :
    csvRows rows = .ok (csvMatrix rows) := by
  simp [csvRows, h]

theorem collect_data_singleton (t : String) (fetch : String → List Record)
    (ht : t ∈ knownDataTypes) :
    collect_data [t] fetch = [(t, fetch t)] := by
  simp only [knownDataTypes, List.mem_cons, List.mem_singleton,
    List.not_mem_nil, or_false] at ht
  rcases ht with rfl | rfl | rfl | rfl <;> rfl

theorem buildZipEntries_ok (l : List (String × List Record))
    (h : ∀ p ∈ l, (p.2).all (rowFits (csvHeader p.2)) = true) :
    buildZipEntries l =
      .ok (l.map fun nr => (nr.1 ++ ".csv", csvMatrix nr.2)) := by
  induction l with
  | nil => rfl
  | cons a l ih =>
    obtain ⟨n, rows⟩ := a
    have ha := h (n, rows) (by simp)
    have hl := ih fun p hp => h p (List.mem_cons_of_mem _ hp)
    simp [buildZipEntries, csvRows_ok rows ha, hl]
    rfl

theorem export_single (export_id : Nat) (t : String)
    (fetch : String → List Record) (ht : t ∈ knownDataTypes)
    (hf : (fetch t).all (rowFits (csvHeader (fetch t))) = true) :
    CsvExporter.export export_id [t] fetch =
      .ok (.single (t ++ ".csv") (csvMatrix (fetch t))) := by
  simp [CsvExporter.export, collect_data_singleton t fetch ht,
    csvRows_ok (fetch t) hf]

/-- C5 counterexample: a single requested data type whose rows are not
homogeneous — the second record carries a field (`user_email`) absent from
the first record's field names — makes `csv.DictWriter` raise `ValueError`,
so the exporter produces no artifact at all rather than writing a single
`.csv` file.  (Reachable: `_fetch_conversations` adds `user_email` only for
conversations with a non-null user when personal data is included.) -/
theorem c5_counterexample :
    CsvExporter.export 1 ["conversations"] (fun _ => badRecords) =
      .error "dict contains fields not in fieldnames" ∧
    ∀ a : ExportArtifact,
      CsvExporter.export 1 ["conversations"] (fun _ => badRecords) ≠
        .ok a := by
  refine ⟨rfl, ?_⟩
  intro a ha
  have hE : CsvExporter.export 1 ["conversations"] (fun _ => badRecords) =
      (.error "dict contains fields not in fieldnames" :
        Except String ExportArtifact) := rfl
  rw [hE] at ha
  exact Except.noConfusion ha

/-- C5 (amended): with distinct, recognised data types whose records all
keep their keys within the first record's field names (otherwise
`csv.DictWriter` raises and the export fails — the counterexample above):
exactly one requested type yields a single `{type}.csv` whose cell matrix
has the header derived from the first record's field names, or the single
placeholder column `empty` when there are no records; N > 1 types yield a
ZIP named `export_{id}.zip` holding exactly N entries, one `{type}.csv` per
requested type, empty datasets still carrying the placeholder-only matrix. -/
theorem c5_csv_export_layout (export_id : Nat) (dataTypes : List String)
    (fetch : String → List Record) (hnd : dataTypes.Nodup)
    (hsub : ∀ t ∈ dataTypes, t ∈ knownDataTypes)
    (hfit : ∀ t ∈ dataTypes,
      (fetch t).all (rowFits (csvHeader (fetch t))) = true) :
    (∀ t, dataTypes = [t] →
      CsvExporter.export export_id dataTypes fetch =
        .ok (.single (t ++ ".csv") (csvMatrix (fetch t))) ∧
      (fetch t = [] → csvMatrix (fetch t) = [["empty"]])) ∧
    (1 < dataTypes.length → ∃ entries,
      CsvExporter.export export_id dataTypes fetch =
        .ok (.zip ("export_" ++ toString export_id ++ ".zip") entries) ∧
      entries.length = dataTypes.length ∧
      (∀ t ∈ dataTypes, (t ++ ".csv", csvMatrix (fetch t)) ∈ entries) ∧
      (∀ p ∈ entries,
        ∃ t ∈ dataTypes, p = (t ++ ".csv", csvMatrix (fetch t))) ∧
      (∀ t ∈ dataTypes, fetch t = [] → csvMatrix (fetch t) = [["empty"]])) := by
  constructor
  · intro t ht
    subst ht
    have hplaceholder : fetch t = [] → csvMatrix (fetch t) = [["empty"]] := by
      intro hf
      rw [hf]
      rfl
    exact ⟨export_single export_id t fetch (hsub t (by simp))
      (hfit t (by simp)), hplaceholder⟩
  · intro hlen
    have hL : (knownDataTypes.filter fun t => dataTypes.contains t).length =
        dataTypes.length := filter_known_length dataTypes hnd hsub
    have hall : ∀ p ∈ (knownDataTypes.filter fun t =>
        dataTypes.contains t).map (fun t => (t, fetch t)),
        (p.2).all (rowFits (csvHeader p.2)) = true := by
      intro p hp
      rcases List.mem_map.mp hp with ⟨t, htk, rfl⟩
      rw [List.mem_filter] at htk
      exact hfit t ((contains_iff _ _).mp htk.2)
    have hbz := buildZipEntries_ok _ hall
    refine ⟨(knownDataTypes.filter fun t => dataTypes.contains t).map
        fun t => (t ++ ".csv", csvMatrix (fetch t)), ?_, ?_, ?_, ?_, ?_⟩
    · simp only [CsvExporter.export]
      rw [collect_data_eq, if_pos]
      · rw [hbz]
        simp only [List.map_map]
        rfl
      · rw [List.length_map, hL]
        exact hlen
    · rw [List.length_map, hL]
    · intro t ht
      have htk : t ∈ knownDataTypes.filter fun t => dataTypes.contains t := by
        rw [List.mem_filter]
        exact ⟨hsub t ht, (contains_iff _ _).mpr ht⟩
      exact List.mem_map.mpr ⟨t, htk, rfl⟩
    · intro p hp
      rcases List.mem_map.mp hp with ⟨t, htk, rfl⟩
      rw [List.mem_filter] at htk
      exact ⟨t, (contains_iff _ _).mp htk.2, rfl⟩
    · intro t _ hf
      rw [hf]
      rfl

/-- Witness for C5: one requested type gives one CSV; two give a two-entry
ZIP with `conversations.csv` and `escalations.csv`. -/
theorem c5_csv_export_layout_witness :
    (∀ t, ["conversations"] = [t] →
      CsvExporter.export 7 ["conversations"] (fun _ => []) =
        .ok (.single (t ++ ".csv") (csvMatrix [])) ∧
      (([] : List Record) = [] → csvMatrix ([] : List Record) = [["empty"]])) ∧
    (1 < (["conversations", "escalations"] : List String).length → ∃ entries,
      CsvExporter.export 7 ["conversations", "escalations"] (fun _ => []) =
        .ok (.zip ("export_" ++ toString 7 ++ ".zip") entries) ∧
      entries.length = (["conversations", "escalations"] : List String).length ∧
      (∀ t ∈ (["conversations", "escalations"] : List String),
        (t ++ ".csv", csvMatrix []) ∈ entries) ∧
      (∀ p ∈ entries, ∃ t ∈ (["conversations", "escalations"] : List String),
        p = (t ++ ".csv", csvMatrix ([] : List Record))) ∧
      (∀ t ∈ (["conversations", "escalations"] : List String),
        ([] : List Record) = [] → csvMatrix ([] : List Record) = [["empty"]])) :=
  ⟨(c5_csv_export_layout 7 ["conversations"] (fun _ => [])
      (by decide) (by decide) (fun _ _ => rfl)).1,
   (c5_csv_export_layout 7 ["conversations", "escalations"] (fun _ => [])
      (by decide) (by decide) (fun _ _ => rfl)).2⟩

/-! ### Claim theorems: knowledge-base embedding pipeline -/

theorem collectVectors_none (b : Backend) (e : KBEntry)
    (hen : enComplete e = false) (hsv : svComplete e = false) :
    collectVectors b e = .ok [] := by
  simp [collectVectors, hen, hsv]
  rfl

theorem collectVectors_en (b : Backend) (e : KBEntry)
    (hen : enComplete e = true) (hsv : svComplete e = false)
    (v : List Int) (hv : b.embed (create_vector_data e "en").1 = .ok v) :
    collectVectors b e =
      .ok [(e.id ++ "_en", v, (create_vector_data e "en").2)] := by
  simp [collectVectors, hen, hsv, hv]
  rfl

theorem collectVectors_sv (b : Backend) (e : KBEntry)
    (hen : enComplete e = false) (hsv : svComplete e = true)
    (v : List Int) (hv : b.embed (create_vector_data e "sv").1 = .ok v) :
    collectVectors b e =
      .ok [(e.id ++ "_sv", v, (create_vector_data e "sv").2)] := by
  simp [collectVectors, hen, hsv, hv]
  rfl

theorem collectVectors_both (b : Backend) (e : KBEntry)
    (hen : enComplete e = true) (hsv : svComplete e = true)
    (v w : List Int) (hv : b.embed (create_vector_data e "en").1 = .ok v)
    (hw : b.embed (create_vector_data e "sv").1 = .ok w) :
    collectVectors b e =
      .ok [(e.id ++ "_en", v, (create_vector_data e "en").2),
           (e.id ++ "_sv", w, (create_vector_data e "sv").2)] := by
  simp [collectVectors, hen, hsv, hv, hw]
  rfl

theorem gen_unavailable (b : Backend) (e : KBEntry)
    (h : b.embeddings = false ∨ b.vector_store = false) :
    generate_and_store_embeddings b e =
      { success := false, vector_ids := [],
        error_message := some (servicesUnavailableMsg b) } := by
  unfold generate_and_store_embeddings
  rcases h with h | h <;> simp [h]

theorem gen_ok (b : Backend) (e : KBEntry)
    (hE : b.embeddings = true) (hV : b.vector_store = true)
    (vs : List UpVector) (hne : vs.isEmpty = false)
    (hc : collectVectors b e = .ok vs) (hU : b.upsert vs = .ok ()) :
    generate_and_store_embeddings b e =
      { success := true, vector_ids := vs.map fun v => v.1,
        error_message := none } := by
  unfold generate_and_store_embeddings
  rw [hE, hV, hc]
  simp [hne, hU]

theorem gen_ok_cons (b : Backend) (e : KBEntry)
    (hE : b.embeddings = true) (hV : b.vector_store = true)
    (x : UpVector) (rest : List UpVector)
    (hc : collectVectors b e = .ok (x :: rest))
    (hU : b.upsert (x :: rest) = .ok ()) :
    generate_and_store_embeddings b e =
      { success := true, vector_ids := (x :: rest).map fun v => v.1,
        error_message := none } :=
  gen_ok b e hE hV (x :: rest) rfl hc hU

theorem gen_no_content (b : Backend) (e : KBEntry)
    (hE : b.embeddings = true) (hV : b.vector_store = true)
    (hc : collectVectors b e = .ok []) :
    generate_and_store_embeddings b e =
      { success := false, vector_ids := [],
        error_message := some "No content to process" } := by
  unfold generate_and_store_embeddings
  rw [hE, hV, hc]
  simp

theorem process_entry_success (b : Backend) (entry : KBEntry) (now : Nat)
    (ids : List String)
    (h : generate_and_store_embeddings b
        { entry with embedding_status := STATUS_PROCESSING } =
      { success := true, vector_ids := ids, error_message := none }) :
    process_entry b (some entry) now =
      ({ success := true, vector_ids := ids, error_message := none },
       some { entry with
         pinecone_vector_ids := ids
         embedding_status := STATUS_COMPLETED
         processed_at := some now }) := by
  simp [process_entry, h]

theorem process_entry_failure (b : Backend) (entry : KBEntry) (now : Nat)
    (r : EmbeddingResult)
    (h : generate_and_store_embeddings b
        { entry with embedding_status := STATUS_PROCESSING } = r)
    (hr : r.success = false) :
    process_entry b (some entry) now =
      (r, some { entry with embedding_status := STATUS_FAILED }) := by
  simp [process_entry, h, hr]

/-- C1: with both backends initialised and every provider call succeeding,
processing an entry stores exactly one vector id per complete language pair —
`{id}_en` for English only, `{id}_sv` for Swedish only, both (English first)
when both pairs are complete — in the result and on the row, with
`embedding_status` COMPLETED and `processed_at` stamped; with no complete
pair it fails with the no-content error and leaves `pinecone_vector_ids`
unchanged. -/
theorem c1_embedding_coverage (b : Backend) (entry : KBEntry) (now : Nat)
    (hE : b.embeddings = true) (hV : b.vector_store = true)
    (hEmbed : ∀ s, ∃ v, b.embed s = Except.ok v)
    (hUpsert : ∀ vs, b.upsert vs = Except.ok ()) :
    (enComplete entry = true → svComplete entry = false →
      process_entry b (some entry) now =
        ({ success := true, vector_ids := [entry.id ++ "_en"],
           error_message := none },
         some { entry with
           pinecone_vector_ids := [entry.id ++ "_en"]
           embedding_status := STATUS_COMPLETED
           processed_at := some now })) ∧
    (enComplete entry = false → svComplete entry = true →
      process_entry b (some entry) now =
        ({ success := true, vector_ids := [entry.id ++ "_sv"],
           error_message := none },
         some { entry with
           pinecone_vector_ids := [entry.id ++ "_sv"]
           embedding_status := STATUS_COMPLETED
           processed_at := some now })) ∧
    (enComplete entry = true → svComplete entry = true →
      process_entry b (some entry) now =
        ({ success := true,
           vector_ids := [entry.id ++ "_en", entry.id ++ "_sv"],
           error_message := none },
         some { entry with
           pinecone_vector_ids := [entry.id ++ "_en", entry.id ++ "_sv"]
           embedding_status := STATUS_COMPLETED
           processed_at := some now })) ∧
    (enComplete entry = false → svComplete entry = false →
      process_entry b (some entry) now =
        ({ success := false, vector_ids := [],
           error_message := some "No content to process" },
         some { entry with embedding_status := STATUS_FAILED })) := by
  refine ⟨?_, ?_, ?_, ?_⟩
  · intro hen hsv
    obtain ⟨v, hv⟩ := hEmbed
      (create_vector_data { entry with embedding_status := STATUS_PROCESSING }
        "en").1
    have hc := collectVectors_en b
      { entry with embedding_status := STATUS_PROCESSING } hen hsv v hv
    have hg := gen_ok_cons b _ hE hV _ _ hc (hUpsert _)
    exact process_entry_success b entry now _ hg
  · intro hen hsv
    obtain ⟨v, hv⟩ := hEmbed
      (create_vector_data { entry with embedding_status := STATUS_PROCESSING }
        "sv").1
    have hc := collectVectors_sv b
      { entry with embedding_status := STATUS_PROCESSING } hen hsv v hv
    have hg := gen_ok_cons b _ hE hV _ _ hc (hUpsert _)
    exact process_entry_success b entry now _ hg
  · intro hen hsv
    obtain ⟨v, hv⟩ := hEmbed
      (create_vector_data { entry with embedding_status := STATUS_PROCESSING }
        "en").1
    obtain ⟨w, hw⟩ := hEmbed
      (create_vector_data { entry with embedding_status := STATUS_PROCESSING }
        "sv").1
    have hc := collectVectors_both b
      { entry with embedding_status := STATUS_PROCESSING } hen hsv v w hv hw
    have hg := gen_ok_cons b _ hE hV _ _ hc (hUpsert _)
    exact process_entry_success b entry now _ hg
  · intro hen hsv
    have hc := collectVectors_none b
      { entry with embedding_status := STATUS_PROCESSING } hen hsv
    have hg := gen_no_content b _ hE hV hc
    exact process_entry_failure b entry now _ hg rfl

/-- Witness for C1 at an entry with only the English pair complete. -/
theorem c1_embedding_coverage_witness :
    process_entry sampleBackend (some sampleEntry) 5 =
      ({ success := true, vector_ids := [sampleEntry.id ++ "_en"],
         error_message := none },
       some { sampleEntry with
         pinecone_vector_ids := [sampleEntry.id ++ "_en"]
         embedding_status := STATUS_COMPLETED
         processed_at := some 5 }) :=
  (c1_embedding_coverage sampleBackend sampleEntry 5 rfl rfl
      (fun _ => ⟨[1, 2], rfl⟩) (fun _ => rfl)).1 (by decide) (by decide)

/-- C8: whenever processing an existing entry fails (provider exception,
missing credentials, or no complete pair), the final write sets only
`embedding_status` to FAILED — `pinecone_vector_ids` and `processed_at`
retain the entry's previous values; and with a backend client missing, the
result is the deterministic services-unavailable failure, not an
exception. -/
theorem c8_failure_frame (b : Backend) (entry : KBEntry) (now : Nat) :
    ((process_entry b (some entry) now).1.success = false →
      (process_entry b (some entry) now).2 =
        some { entry with embedding_status := STATUS_FAILED }) ∧
    (b.embeddings = false ∨ b.vector_store = false →
      (process_entry b (some entry) now).1 =
        { success := false, vector_ids := [],
          error_message := some (servicesUnavailableMsg b) }) := by
  constructor
  · intro h
    cases hs : (generate_and_store_embeddings b
        { entry with embedding_status := STATUS_PROCESSING }).success with
    | false =>
      have hp := process_entry_failure b entry now _ rfl hs
      rw [hp]
    | true => simp [process_entry, hs] at h
  · intro h
    have hg := gen_unavailable b
      { entry with embedding_status := STATUS_PROCESSING } h
    have hp := process_entry_failure b entry now _ hg rfl
    rw [hp]

/-- Witness for C8 with the OpenAI client uninitialised. -/
theorem c8_failure_frame_witness :
    ((process_entry { sampleBackend with embeddings := false }
        (some sampleEntry) 5).2 =
      some { sampleEntry with embedding_status := STATUS_FAILED }) ∧
    ((process_entry { sampleBackend with embeddings := false }
        (some sampleEntry) 5).1 =
      { success := false, vector_ids := [],
        error_message :=
          some (servicesUnavailableMsg
            { sampleBackend with embeddings := false }) }) :=
  ⟨(c8_failure_frame { sampleBackend with embeddings := false }
      sampleEntry 5).1 rfl,
   (c8_failure_frame { sampleBackend with embeddings := false }
      sampleEntry 5).2 (Or.inl rfl)⟩

/-! ### Claim theorems: vector search filter -/

/-- C7 counterexample: a supplied-but-empty language argument (Python-falsy)
adds no `language` key to the filter, so "key present iff argument supplied"
fails at `language = some ""`. -/
theorem c7_counterexample :
    ¬(∀ (language category : Option String),
        ("language" ∈ (buildFilter language category).map Prod.fst ↔
          language ≠ none)) := by
  intro hall
  have h := (hall (some "") none).2 (fun hx => Option.noConfusion hx)
  simp [buildFilter, truthy] at h
  exact absurd h (by decide)

/-- C7 (amended): the filter sent to the index has a `language` key iff the
language argument is truthy (supplied and non-empty), a `category` key iff
the category argument is truthy, and is omitted entirely (`none`) when both
are falsy; the returned list is exactly the index's matches mapped one-to-one
in the index's order, with no client-side re-sorting. -/
theorem c7_search_filter (language category : Option String) :
    ((buildFilter language category).map Prod.fst =
      (if truthy language then ["language"] else []) ++
        (if truthy category then ["category"] else [])) ∧
    ("language" ∈ (buildFilter language category).map Prod.fst ↔
      truthy language = true) ∧
    ("category" ∈ (buildFilter language category).map Prod.fst ↔
      truthy category = true) ∧
    (truthy language = false → truthy category = false →
      sentFilter language category = none) ∧
    (∀ (b : Backend) (q : String) (tk : Nat) (ic : Bool) (qv : List Int)
        (ms : List (Int × List (String × String))),
      b.embeddings = true → b.vector_store = true →
      b.embed q = Except.ok qv →
      b.query qv tk (sentFilter language category) = Except.ok ms →
      search b q language category tk ic = ms.map (toSearchResult ic)) := by
  refine ⟨?_, ?_, ?_, ?_, ?_⟩
  · by_cases h1 : truthy language <;> by_cases h2 : truthy category <;>
      simp [buildFilter, h1, h2]
  · by_cases h1 : truthy language <;> by_cases h2 : truthy category <;>
      simp [buildFilter, h1, h2]
  · by_cases h1 : truthy language <;> by_cases h2 : truthy category <;>
      simp [buildFilter, h1, h2]
  · intro h1 h2
    simp [sentFilter, buildFilter, h1, h2]
  · intro b q tk ic qv ms hE hV hq hqu
    simp [search, hE, hV, hq, hqu]

/-- Witness for C7: a search with `language = "en"` against a backend whose
index returns no matches yields the mapped (empty) match list. -/
theorem c7_search_filter_witness :
    search sampleBackend "brake failure" (some "en") none 3 true =
      ([] : List (Int × List (String × String))).map (toSearchResult true) :=
  (c7_search_filter (some "en") none).2.2.2.2 sampleBackend "brake failure"
    3 true [1, 2] [] rfl rfl rfl rfl

end SafeLift
